import Mathlib

/-!
Shallow embedding of Impala's `ai_generate_text` built-in function
(`be/src/exprs/ai-functions-ir.cc`, class `AiFunctions` declared in
`be/src/exprs/ai-functions.h`).

Modelling conventions:

* An `impala_udf::StringVal` argument is modelled as `Option String`;
  `none` is a null `StringVal`.  The code only ever distinguishes
  "null pointer or zero length" from "present", captured by `svPresent`.
* The external collaborators (the keystore lookup through the frontend, the
  rapidjson parser/writer, and the kudu `EasyCurl` transport) are supplied
  as functions in an `AiEnv` record; the spec lists them as out-of-scope
  collaborators with exactly these capabilities.
* rapidjson documents are modelled by `JsonVal`.  A rapidjson object keeps
  its members in insertion order and may hold duplicate names, so objects
  are ordered association lists.  Numbers are kept as their textual form
  since none of the embedded code inspects numeric values.
* Operations that the code performs on a rapidjson value without first
  establishing the type precondition of that operation
  (`GetObject()`/`HasMember()` require `IsObject()`) are modelled as a
  distinct `Outcome.fault`: in the C++ they fire `RAPIDJSON_ASSERT`,
  aborting the process in assertion-enabled builds and giving undefined
  behaviour otherwise, so no `StringVal` is returned to the caller.
* Modelled from the spec: `StringVal::CopyFrom` and the `StringVal(ctx, n)`
  allocating constructor live in the UDF support library, which is not part
  of the sources here.  Per the spec's result contract, the function
  returns a string except "in the single case where response buffer
  allocation for the final successful result fails, which returns a null
  value"; accordingly `CopyFrom` sites are modelled as total and only the
  final-result allocation consults `AiEnv.allocOk`.
-/

/-- A rapidjson value: objects are ordered member lists that may contain
duplicate names; numbers are kept as their source text. -/
inductive JsonVal where
  | null
  | boolean (b : Bool)
  | num (lit : String)
  | str (s : String)
  | arr (elems : List JsonVal)
  | obj (members : List (String × JsonVal))

/-- Whether a `StringVal` argument is present: the code's
`ptr != nullptr && len != 0` test. -/
def svPresent : Option String → Bool
  | none => false
  | some s => !(s == "")

/-- The character data of a `StringVal` (empty for a null value). -/
def svStr : Option String → String
  | none => ""
  | some s => s

/-- ASCII lowercasing of one character, the case folding used by
`strncasecmp` and `gstrcasestr` in the C locale. -/
def charLower (c : Char) : Char :=
  if 65 ≤ c.toNat ∧ c.toNat ≤ 90 then Char.ofNat (c.toNat + 32) else c

/-- ASCII lowercasing of a string. -/
def lowerAscii (s : String) : String := String.mk (s.data.map charLower)

def AI_GENERATE_TXT_JSON_PARSE_ERROR : String := "Invalid Json"

def AI_GENERATE_TXT_INVALID_PROTOCOL_ERROR : String := "Invalid Protocol, use https"

def AI_GENERATE_TXT_UNSUPPORTED_ENDPOINT_ERROR : String := "Unsupported Endpoint"

def AI_GENERATE_TXT_INVALID_PROMPT_ERROR : String :=
  "Invalid Prompt, cannot be null or empty"

/-- The forbidden-override error text; the single quotes around `messages`
are built from their character code. -/
def AI_GENERATE_TXT_MSG_OVERRIDE_FORBIDDEN_ERROR : String :=
  "Invalid override, " ++ String.singleton (Char.ofNat 39) ++ "messages"
    ++ String.singleton (Char.ofNat 39) ++ " cannot be overriden"

/-- Source constant `AI_API_ENDPOINT_PREFIX` (renamed for Lean).  In the C++,
`sizeof(AI_API_ENDPOINT_PREFIX)` is the size of a pointer (8 on the 64-bit
targets Impala builds for), which happens to equal `strlen("https://")`,
so the comparison covers exactly this scheme string. -/
def AI_API_ENDPOINT_SCHEME : String := "https://"

def OPEN_AI_AZURE_ENDPOINT : String := "openai.azure.com"

def OPEN_AI_PUBLIC_ENDPOINT : String := "api.openai.com"

def OPEN_AI_REQUEST_FIELD_CONTENT_TYPE_HEADER : String :=
  "Content-Type: application/json"

/-- `AiFunctions::is_api_endpoint_valid`: gutil `strncaseprefix`, i.e. a
case-insensitive test that the endpoint starts with `https://`. -/
def is_api_endpoint_valid (endpoint : String) : Bool :=
  (lowerAscii AI_API_ENDPOINT_SCHEME).data.isPrefixOf (lowerAscii endpoint).data

/-- Case-insensitive-folded infix test on character lists. -/
def isInfixChars (needle : List Char) : List Char → Bool
  | [] => needle.isEmpty
  | c :: rest => needle.isPrefixOf (c :: rest) || isInfixChars needle rest

/-- gutil `gstrcasestr` as a boolean: case-insensitive substring search. -/
def containsCaseless (haystack needle : String) : Bool :=
  isInfixChars (lowerAscii needle).data (lowerAscii haystack).data

/-- `AiFunctions::is_api_endpoint_supported`: only OpenAI endpoints, by
case-insensitive substring match anywhere in the string. -/
def is_api_endpoint_supported (endpoint : String) : Bool :=
  containsCaseless endpoint OPEN_AI_AZURE_ENDPOINT
    || containsCaseless endpoint OPEN_AI_PUBLIC_ENDPOINT

/-- Message standing for a firing `RAPIDJSON_ASSERT(IsObject())`: the
operation has no defined result, so the model yields a fault carrying this
marker instead of a return value. -/
def RAPIDJSON_ASSERT_IS_OBJECT : String := "RAPIDJSON_ASSERT(IsObject())"

/-- rapidjson `FindMember`/`operator[]` on an object: the first member with
the given name. -/
def getMember (ms : List (String × JsonVal)) (n : String) : Option JsonVal :=
  (ms.find? (fun m => m.1 == n)).map (fun m => m.2)

/-- `AiGenerateTextParseOpenAiResponse` (lines 92-116): walk
`choices[0].message.content`.  Any guarded structural mismatch yields `""`.
`document.HasMember` and `firstChoice.HasMember` assert `IsObject()` on
their receiver, which the code does not check first; those two spots are
the `.error` cases. -/
def AiGenerateTextParseOpenAiResponse (document : JsonVal) : Except String String :=
  match document with
  | .obj dms =>
    match getMember dms "choices" with
    | some (.arr (firstChoice :: _)) =>
      match firstChoice with
      | .obj cms =>
        match getMember cms "message" with
        | some (.obj mms) =>
          match getMember mms "content" with
          | some (.str s) => .ok s
          | _ => .ok ""
        | _ => .ok ""
      | _ => .error RAPIDJSON_ASSERT_IS_OBJECT
    | some (.arr []) => .ok ""
    | _ => .ok ""
  | _ => .error RAPIDJSON_ASSERT_IS_OBJECT

/-- rapidjson `HasMember` on a member list. -/
def hasMember (ms : List (String × JsonVal)) (n : String) : Bool :=
  ms.any (fun m => m.1 == n)

/-- `payload[name] = value`: assign the value of the first member with the
given name, leaving everything else unchanged. -/
def setMember : List (String × JsonVal) → String → JsonVal → List (String × JsonVal)
  | [], _, _ => []
  | m :: rest, n, v =>
    if m.1 == n then (m.1, v) :: rest else m :: setMember rest n v

/-- The override-merge loop over `overrides.GetObject()` (lines 194-207):
for each override member, an existing member is reassigned unless it is
`messages` (which fails the call), and an absent member is appended. -/
def mergeLoop (payload ovr : List (String × JsonVal)) :
    Except Unit (List (String × JsonVal)) :=
  match ovr with
  | [] => .ok payload
  | (n, v) :: rest =>
    if hasMember payload n then
      if n == "messages" then .error ()
      else mergeLoop (setMember payload n v) rest
    else
      mergeLoop (payload ++ [(n, v)]) rest

inductive OvErr where
  | parseErr
  | forbidden
  | assertFault

/-- The process-wide configuration and the external collaborators the
function calls, all read-only during a call:

* `ai_endpoint`, `ai_model`: the `FLAGS_ai_endpoint` / `FLAGS_ai_model`
  configuration defaults.
* `ai_api_key`: the static `AiFunctions::ai_api_key_` default credential.
* `getSecret`: `Frontend::GetSecretFromKeyStore`; an error carries
  `status.msg().msg()`.
* `parse`: rapidjson `Document::Parse`; `none` is `HasParseError()`.
* `stringify`: rapidjson `Writer` serialization (`stringify_json`).
* `post`: `kudu::EasyCurl::PostToURL` with `fail_on_http_error`; an error
  carries `status.ToString()`.
* `allocOk`: whether allocating a result buffer of the given length
  succeeds (see the header comment on `StringVal` allocation). -/
structure AiEnv where
  ai_endpoint : String
  ai_model : String
  ai_api_key : String
  getSecret : String → Except String String
  parse : String → Option JsonVal
  stringify : JsonVal → String
  post : String → String → List String → Except String String
  allocOk : Nat → Bool

/-- What the call produces for its caller: a returned `StringVal`
(`none` being a null `StringVal`), or a `RAPIDJSON_ASSERT` fault in which
nothing is returned at all. -/
inductive Outcome where
  | ret (v : Option String)
  | fault (msg : String)

/-- The observable behaviour of one call: its outcome, the arguments of the
`PostToURL` transport call if one was made, and whether the response body
was handed to the JSON parser. -/
structure RunResult where
  outcome : Outcome
  postCall : Option (String × String × List String)
  parsedResponse : Bool

/-- A result produced before (or instead of) any transport activity. -/
def noCall (o : Outcome) : RunResult := ⟨o, none, false⟩

/-- Lines 185-208: if `params` is present, parse it (a parse failure is the
JSON-parse error) and fold the members of `overrides.GetObject()` into the
payload.  `GetObject()` asserts `IsObject()`, which the code does not
check: a document of any other type is the assert fault. -/
def applyOverrides (env : AiEnv) (params : Option String)
    (payload : List (String × JsonVal)) : Except OvErr (List (String × JsonVal)) :=
  if svPresent params then
    match env.parse (svStr params) with
    | none => .error .parseErr
    | some (.obj ms) =>
      match mergeLoop payload ms with
      | .error _ => .error .forbidden
      | .ok merged => .ok merged
    | some _ => .error .assertFault
  else .ok payload

/-- Lines 142-159: the request headers.  The fixed content-type header comes
first; then, if a secret reference is present, it is resolved through the
keystore (a failure becomes the whole outcome, its message verbatim),
otherwise the process-wide default key is used, in both cases as
`Authorization: Bearer <token>`. -/
def buildAuthHeader (env : AiEnv) (api_key_jceks_secret : Option String) :
    Except String String :=
  if svPresent api_key_jceks_secret then
    match env.getSecret (svStr api_key_jceks_secret) with
    | .error msg => .error msg
    | .ok api_key => .ok ("Authorization: Bearer " ++ api_key)
  else .ok ("Authorization: Bearer " ++ env.ai_api_key)

/-- Lines 160-183: the base payload, in insertion order: `model` (supplied
or configured default), then `messages` = one `role: user` object carrying
the prompt. -/
def basePayload (env : AiEnv) (prompt model : Option String) :
    List (String × JsonVal) :=
  [("model", JsonVal.str (if svPresent model then svStr model else env.ai_model)),
   ("messages", JsonVal.arr
      [JsonVal.obj [("role", JsonVal.str "user"),
                    ("content", JsonVal.str (svStr prompt))]])]

/-- Lines 225-254: the transport call and response extraction.  A transport
error becomes the outcome verbatim without touching the parser; otherwise
the body is parsed (a parse failure or an empty extracted string is the
JSON-parse error), and a successful non-empty extraction is copied into a
fresh buffer, yielding a null `StringVal` if that allocation fails.  The
second component records whether the response was given to the parser. -/
def networkPhase (env : AiEnv) (endpoint_str payload_str : String)
    (headers : List String) : Outcome × Bool :=
  match env.post endpoint_str payload_str headers with
  | .error st => (.ret (some st), false)
  | .ok resp =>
    match env.parse resp with
    | none => (.ret (some AI_GENERATE_TXT_JSON_PARSE_ERROR), true)
    | some document =>
      match AiGenerateTextParseOpenAiResponse document with
      | .error f => (.fault f, true)
      | .ok response =>
        if response == "" then (.ret (some AI_GENERATE_TXT_JSON_PARSE_ERROR), true)
        else if env.allocOk response.length then (.ret (some response), true)
        else (.ret none, true)

/-- Lines 142-254 of `AiGenerateTextInternal`, after endpoint resolution:
headers, prompt validation, payload assembly, override merge, then either
the dry-run rendering (endpoint, each header, payload, newline-separated)
or the transport/extraction phase. -/
def AiGenTextBody (env : AiEnv) (endpoint_str : String)
    (prompt model api_key_jceks_secret params : Option String)
    (dry_run : Bool) : RunResult :=
  match buildAuthHeader env api_key_jceks_secret with
  | .error msg => noCall (.ret (some msg))
  | .ok auth =>
    let headers := [OPEN_AI_REQUEST_FIELD_CONTENT_TYPE_HEADER, auth]
    if svPresent prompt then
      match applyOverrides env params (basePayload env prompt model) with
      | .error .parseErr => noCall (.ret (some AI_GENERATE_TXT_JSON_PARSE_ERROR))
      | .error .forbidden =>
        noCall (.ret (some AI_GENERATE_TXT_MSG_OVERRIDE_FORBIDDEN_ERROR))
      | .error .assertFault => noCall (.fault RAPIDJSON_ASSERT_IS_OBJECT)
      | .ok payload =>
        let payload_str := env.stringify (.obj payload)
        if dry_run then
          noCall (.ret (some
            (List.foldl (fun acc h => acc ++ "\n" ++ h) endpoint_str headers
              ++ "\n" ++ payload_str)))
        else
          let phase := networkPhase env endpoint_str payload_str headers
          ⟨phase.1, some (endpoint_str, payload_str, headers), phase.2⟩
    else noCall (.ret (some AI_GENERATE_TXT_INVALID_PROMPT_ERROR))

/-- `AiFunctions::AiGenerateTextInternal` (lines 124-255).  An explicitly
supplied non-empty endpoint must pass the protocol predicate and then the
support predicate, each failure returning its distinct error immediately;
an absent endpoint falls back to the configured default, unvalidated. -/
def AiGenerateTextInternal (env : AiEnv)
    (endpoint prompt model api_key_jceks_secret params : Option String)
    (dry_run : Bool) : RunResult :=
  if svPresent endpoint then
    if !(is_api_endpoint_valid (svStr endpoint)) then
      noCall (.ret (some AI_GENERATE_TXT_INVALID_PROTOCOL_ERROR))
    else if !(is_api_endpoint_supported (svStr endpoint)) then
      noCall (.ret (some AI_GENERATE_TXT_UNSUPPORTED_ENDPOINT_ERROR))
    else AiGenTextBody env (svStr endpoint) prompt model api_key_jceks_secret
          params dry_run
  else AiGenTextBody env env.ai_endpoint prompt model api_key_jceks_secret
        params dry_run

/-- The endpoint the request is actually sent to (lines 127-130). -/
def effectiveEndpoint (env : AiEnv) (endpoint : Option String) : String :=
  if svPresent endpoint then svStr endpoint else env.ai_endpoint

/-- Public entry point with the full parameter set (lines 257-262). -/
def AiGenerateText (env : AiEnv)
    (endpoint prompt model api_key_jceks_secret params : Option String) : RunResult :=
  AiGenerateTextInternal env endpoint prompt model api_key_jceks_secret params false

/-- Public prompt-only entry point (lines 264-267): every other parameter
is a null `StringVal`. -/
def AiGenerateTextPromptOnly (env : AiEnv) (prompt : Option String) : RunResult :=
  AiGenerateTextInternal env none prompt none none none false

/-- `AiFunctions::AiGenerateTextDummy` (lines 269-272), identical to the
prompt-only entry point. -/
def AiGenerateTextDummy (env : AiEnv) (prompt : Option String) : RunResult :=
  AiGenerateTextInternal env none prompt none none none false

/-- The last value bound to a member name in an override document, i.e. the
value left in the payload after every occurrence has been merged. -/
def lastVal (ms : List (String × JsonVal)) (n : String) : Option JsonVal :=
  (ms.reverse.find? (fun m => m.1 == n)).map (fun m => m.2)

/-- A concrete environment used by witness instantiations: configured
defaults are present, the keystore resolves the reference `goodref`, the
parser recognises a handful of override strings, and the transport fails
with an HTTP 500 description. -/
def envW : AiEnv where
  ai_endpoint := "https://api.openai.com/v1/chat/completions"
  ai_model := "gpt-4"
  ai_api_key := "defaultkey"
  getSecret := fun s =>
    if s == "goodref" then .ok "resolvedkey" else .error "keystore lookup failed"
  parse := fun s =>
    if s == "[1,2,3]" then
      some (JsonVal.arr [JsonVal.num "1", JsonVal.num "2", JsonVal.num "3"])
    else if s == "ovr-messages" then
      some (JsonVal.obj
        [("temperature", JsonVal.num "0.5"), ("messages", JsonVal.arr [])])
    else if s == "ovr-temp" then
      some (JsonVal.obj [("temperature", JsonVal.num "0.2")])
    else none
  stringify := fun _ => "SERIALIZED_PAYLOAD"
  post := fun _ _ _ => .error "transport error: HTTP 500"
  allocOk := fun _ => true

/-- `envW` with an unset (empty) process-wide default API key. -/
def envW0 : AiEnv := { envW with ai_api_key := "" }

theorem hasMember_mem_iff (p : List (String × JsonVal)) (n : String) :
    hasMember p n = true ↔ n ∈ p.map Prod.fst := by
  simp [hasMember, List.any_eq_true, List.mem_map]

theorem names_setMember (p : List (String × JsonVal)) (n : String) (v : JsonVal) :
    (setMember p n v).map Prod.fst = p.map Prod.fst := by
  induction p with
  | nil => rfl
  | cons m rest ih => cases h : (m.1 == n) <;> simp [setMember, h, ih]

theorem hasMember_setMember (p : List (String × JsonVal)) (n : String) (v : JsonVal)
    (x : String) : hasMember (setMember p n v) x = hasMember p x := by
  induction p with
  | nil => rfl
  | cons m rest ih =>
    cases h : (m.1 == n) with
    | true => simp [setMember, h, hasMember]
    | false =>
      simp only [setMember, h, Bool.false_eq_true, if_false, hasMember, List.any_cons]
      simp only [hasMember] at ih
      rw [ih]

theorem hasMember_append (p q : List (String × JsonVal)) (x : String) :
    hasMember (p ++ q) x = (hasMember p x || hasMember q x) := by
  simp [hasMember, List.any_append]

theorem filter_nil_of_not_hasMember (p : List (String × JsonVal)) (n : String)
    (h : hasMember p n = false) : p.filter (fun q => q.1 == n) = [] := by
  induction p with
  | nil => rfl
  | cons m rest ih =>
    have h' := h
    simp only [hasMember, List.any_cons, Bool.or_eq_false_iff] at h'
    obtain ⟨h1, h2⟩ := h'
    have hr : hasMember rest n = false := h2
    simp [List.filter_cons, h1, ih hr]

theorem filter_setMember_self (p : List (String × JsonVal)) (n : String) (v : JsonVal)
    (hnd : (p.map Prod.fst).Nodup) (h : hasMember p n = true) :
    (setMember p n v).filter (fun q => q.1 == n) = [(n, v)] := by
  induction p with
  | nil => simp [hasMember] at h
  | cons m rest ih =>
    cases hm : (m.1 == n) with
    | true =>
      have hmn : m.1 = n := by simpa using hm
      have hnotin : n ∉ rest.map Prod.fst := by
        rw [← hmn]
        exact (List.nodup_cons.mp (by simpa using hnd)).1
      have hrest : hasMember rest n = false := by
        cases hh : hasMember rest n
        · rfl
        · exact absurd ((hasMember_mem_iff rest n).mp hh) hnotin
      simp [setMember, hm, List.filter_cons, hmn,
        filter_nil_of_not_hasMember rest n hrest]
    | false =>
      have hrest : hasMember rest n = true := by
        simp [hasMember, hm] at h
        simpa [hasMember] using h
      have hnd' : (rest.map Prod.fst).Nodup := (List.nodup_cons.mp (by simpa using hnd)).2
      simp [setMember, hm, List.filter_cons, ih hnd' hrest]

theorem filter_setMember_ne (p : List (String × JsonVal)) (n : String) (v : JsonVal)
    (x : String) (hx : (n == x) = false) :
    (setMember p n v).filter (fun q => q.1 == x) = p.filter (fun q => q.1 == x) := by
  induction p with
  | nil => rfl
  | cons m rest ih =>
    cases hm : (m.1 == n) with
    | true =>
      have hmn : m.1 = n := by simpa using hm
      simp [setMember, hm, List.filter_cons, hmn, hx]
    | false =>
      simp only [setMember, hm, Bool.false_eq_true, if_false, List.filter_cons]
      cases hmx : (m.1 == x) <;> simp [hmx, ih]

theorem lastVal_cons_of_some (m : String × JsonVal) (rest : List (String × JsonVal))
    (n : String) (v : JsonVal) (h : lastVal rest n = some v) :
    lastVal (m :: rest) n = some v := by
  unfold lastVal at h ⊢
  rw [List.reverse_cons, List.find?_append]
  obtain ⟨q, hq, hv⟩ := Option.map_eq_some'.mp h
  simp [hq, hv]

theorem lastVal_cons_of_none (m : String × JsonVal) (rest : List (String × JsonVal))
    (n : String) (h : lastVal rest n = none) :
    lastVal (m :: rest) n = if (m.1 == n) then some m.2 else none := by
  unfold lastVal at h ⊢
  rw [List.reverse_cons, List.find?_append]
  have hf : rest.reverse.find? (fun q => q.1 == n) = none := Option.map_eq_none'.mp h
  cases hmn : (m.1 == n) <;> simp [hf, List.find?, hmn]

theorem lastVal_eq_none_iff (rest : List (String × JsonVal)) (n : String) :
    lastVal rest n = none ↔ n ∉ rest.map Prod.fst := by
  unfold lastVal
  rw [Option.map_eq_none', List.find?_eq_none]
  constructor
  · intro h hmem
    obtain ⟨a, ha, he⟩ := List.mem_map.mp hmem
    have := h a (List.mem_reverse.mpr ha)
    simp [he] at this
  · intro h a ha hbeq
    exact h (List.mem_map.mpr ⟨a, List.mem_reverse.mp ha, by simpa using hbeq⟩)

theorem mergeLoop_messages (ovr : List (String × JsonVal)) :
    ∀ p, hasMember p "messages" = true → "messages" ∈ ovr.map Prod.fst →
      mergeLoop p ovr = .error () := by
  induction ovr with
  | nil => intro p _ hm; simp at hm
  | cons hd tl ih =>
    intro p hp hm
    obtain ⟨n, v⟩ := hd
    by_cases hn : n = "messages"
    · subst hn
      simp [mergeLoop, hp]
    · have hm' : "messages" ∈ tl.map Prod.fst := by
        rw [List.map_cons, List.mem_cons] at hm
        rcases hm with h | h
        · exact absurd h.symm hn
        · exact h
      have hne : (n == "messages") = false := by simp [hn]
      cases hpn : hasMember p n with
      | true =>
        simp only [mergeLoop, hpn, if_true, hne, Bool.false_eq_true, if_false]
        exact ih _ (by rw [hasMember_setMember]; exact hp) hm'
      | false =>
        simp only [mergeLoop, hpn, Bool.false_eq_true, if_false]
        exact ih _ (by rw [hasMember_append]; simp [hp]) hm'

/-- C1 (code_bug evidence): with a fully valid endpoint, prompt and
credential setup, an overrides string that parses as valid non-object JSON
(here the array `[1,2,3]`) drives `overrides.GetObject()` into
`RAPIDJSON_ASSERT(IsObject())`: the call faults instead of returning a
string value, so the result contract "always a string, null only on
final-buffer allocation failure" does not hold. -/
theorem ai_generate_text_overrides_nonobject_faults :
    AiGenerateTextInternal envW (some "https://api.openai.com/v1/chat/completions")
      (some "hello") none none (some "[1,2,3]") false
      = ⟨Outcome.fault RAPIDJSON_ASSERT_IS_OBJECT, none, false⟩ := rfl

/-- C2: with an explicitly supplied non-empty endpoint, the protocol
predicate is checked first and the support predicate second, each failure
returning its distinct error string immediately and without any transport
call; with a null or empty endpoint the call proceeds on the configured
default endpoint, bypassing both predicates entirely. -/
theorem ai_generate_text_endpoint_validation (env : AiEnv)
    (endpoint prompt model secretRef params : Option String) (dry_run : Bool) :
    (svPresent endpoint = true → is_api_endpoint_valid (svStr endpoint) = false →
      AiGenerateTextInternal env endpoint prompt model secretRef params dry_run
        = noCall (.ret (some AI_GENERATE_TXT_INVALID_PROTOCOL_ERROR)))
    ∧ (svPresent endpoint = true → is_api_endpoint_valid (svStr endpoint) = true →
        is_api_endpoint_supported (svStr endpoint) = false →
        AiGenerateTextInternal env endpoint prompt model secretRef params dry_run
          = noCall (.ret (some AI_GENERATE_TXT_UNSUPPORTED_ENDPOINT_ERROR)))
    ∧ (svPresent endpoint = false →
        AiGenerateTextInternal env endpoint prompt model secretRef params dry_run
          = AiGenTextBody env env.ai_endpoint prompt model secretRef params dry_run) := by
  refine ⟨?_, ?_, ?_⟩
  · intro h1 h2
    simp [AiGenerateTextInternal, h1, h2]
  · intro h1 h2 h3
    simp [AiGenerateTextInternal, h1, h2, h3]
  · intro h1
    simp [AiGenerateTextInternal, h1]

theorem ai_generate_text_endpoint_validation_witness :
    (AiGenerateTextInternal envW (some "http://api.openai.com") (some "hi")
        none none none false
      = noCall (.ret (some AI_GENERATE_TXT_INVALID_PROTOCOL_ERROR)))
    ∧ (AiGenerateTextInternal envW (some "https://evil.example.com") (some "hi")
        none none none false
      = noCall (.ret (some AI_GENERATE_TXT_UNSUPPORTED_ENDPOINT_ERROR)))
    ∧ (AiGenerateTextInternal envW none (some "hi") none none none false
      = AiGenTextBody envW envW.ai_endpoint (some "hi") none none none false) :=
  ⟨(ai_generate_text_endpoint_validation envW (some "http://api.openai.com")
      (some "hi") none none none false).1 (by decide) (by decide),
   (ai_generate_text_endpoint_validation envW (some "https://evil.example.com")
      (some "hi") none none none false).2.1 (by decide) (by decide) (by decide),
   (ai_generate_text_endpoint_validation envW none
      (some "hi") none none none false).2.2 (by decide)⟩

/-- C4 (code_bug evidence): for a successfully parsed response document
whose `choices[0]` element is not a JSON object, the extraction walk calls
`HasMember` on that element, firing `RAPIDJSON_ASSERT(IsObject())` instead
of reporting the empty result as the JSON-parse error. -/
theorem parse_openai_response_nonobject_choice_faults :
    AiGenerateTextParseOpenAiResponse
      (JsonVal.obj [("choices", JsonVal.arr [JsonVal.num "5"])])
      = Except.error RAPIDJSON_ASSERT_IS_OBJECT := rfl

/-- C5: whenever the prompt is null or empty, and the steps that precede
the prompt check succeed (endpoint absent or passing both predicates,
credential resolution not failing), the result is the invalid-prompt error
string and no transport call occurs — whatever model and overrides (valid
or not) were supplied. -/
theorem ai_generate_text_invalid_prompt (env : AiEnv)
    (endpoint prompt model secretRef params : Option String) (dry_run : Bool)
    (auth : String)
    (hend : svPresent endpoint = true →
      is_api_endpoint_valid (svStr endpoint) = true ∧
        is_api_endpoint_supported (svStr endpoint) = true)
    (hauth : buildAuthHeader env secretRef = .ok auth)
    (hprompt : svPresent prompt = false) :
    AiGenerateTextInternal env endpoint prompt model secretRef params dry_run
      = noCall (.ret (some AI_GENERATE_TXT_INVALID_PROMPT_ERROR)) := by
  cases hE : svPresent endpoint with
  | true =>
    obtain ⟨h1, h2⟩ := hend hE
    simp [AiGenerateTextInternal, hE, h1, h2, AiGenTextBody, hauth, hprompt]
  | false =>
    simp [AiGenerateTextInternal, hE, AiGenTextBody, hauth, hprompt]

theorem ai_generate_text_invalid_prompt_witness :
    AiGenerateTextInternal envW (some "https://api.openai.com/v1/chat/completions")
      (some "") (some "gpt-4") none (some "ovr-temp") false
      = noCall (.ret (some AI_GENERATE_TXT_INVALID_PROMPT_ERROR)) :=
  ai_generate_text_invalid_prompt envW
    (some "https://api.openai.com/v1/chat/completions") (some "") (some "gpt-4")
    none (some "ovr-temp") false "Authorization: Bearer defaultkey"
    (fun _ => by constructor <;> decide) rfl (by decide)

/-- C6: a present overrides string that the JSON parser rejects makes the
call return the JSON-parse error string (the same constant used for
response-parse failures) with no transport call, provided the earlier
steps (endpoint, credential, prompt) succeed. -/
theorem ai_generate_text_override_parse_error (env : AiEnv)
    (endpoint prompt model secretRef params : Option String) (dry_run : Bool)
    (auth : String)
    (hend : svPresent endpoint = true →
      is_api_endpoint_valid (svStr endpoint) = true ∧
        is_api_endpoint_supported (svStr endpoint) = true)
    (hauth : buildAuthHeader env secretRef = .ok auth)
    (hprompt : svPresent prompt = true)
    (hparams : svPresent params = true)
    (hparse : env.parse (svStr params) = none) :
    AiGenerateTextInternal env endpoint prompt model secretRef params dry_run
      = noCall (.ret (some AI_GENERATE_TXT_JSON_PARSE_ERROR)) := by
  cases hE : svPresent endpoint with
  | true =>
    obtain ⟨h1, h2⟩ := hend hE
    simp [AiGenerateTextInternal, hE, h1, h2, AiGenTextBody, hauth, hprompt,
      applyOverrides, hparams, hparse]
  | false =>
    simp [AiGenerateTextInternal, hE, AiGenTextBody, hauth, hprompt,
      applyOverrides, hparams, hparse]

theorem ai_generate_text_override_parse_error_witness :
    AiGenerateTextInternal envW none (some "hello") none none
      (some "not json at all,") false
      = noCall (.ret (some AI_GENERATE_TXT_JSON_PARSE_ERROR)) :=
  ai_generate_text_override_parse_error envW none (some "hello") none none
    (some "not json at all,") false "Authorization: Bearer defaultkey"
    (fun h => by simp [svPresent] at h) rfl (by decide) (by decide) rfl

/-- C3: when the overrides string parses as a JSON object with a top-level
member named `messages` — wherever it occurs among the members, and
whatever the other members are — the call returns the override-forbidden
error string and no transport call occurs, provided the steps preceding
the merge (endpoint, credential, prompt) succeed. -/
theorem ai_generate_text_messages_override_forbidden (env : AiEnv)
    (endpoint prompt model secretRef params : Option String) (dry_run : Bool)
    (auth : String) (ms : List (String × JsonVal))
    (hend : svPresent endpoint = true →
      is_api_endpoint_valid (svStr endpoint) = true ∧
        is_api_endpoint_supported (svStr endpoint) = true)
    (hauth : buildAuthHeader env secretRef = .ok auth)
    (hprompt : svPresent prompt = true)
    (hparams : svPresent params = true)
    (hparse : env.parse (svStr params) = some (JsonVal.obj ms))
    (hmsg : "messages" ∈ ms.map Prod.fst) :
    AiGenerateTextInternal env endpoint prompt model secretRef params dry_run
      = noCall (.ret (some AI_GENERATE_TXT_MSG_OVERRIDE_FORBIDDEN_ERROR)) := by
  have hbase : hasMember (basePayload env prompt model) "messages" = true := by
    simp [hasMember, basePayload]
  have hmerge : mergeLoop (basePayload env prompt model) ms = .error () :=
    mergeLoop_messages ms _ hbase hmsg
  cases hE : svPresent endpoint with
  | true =>
    obtain ⟨h1, h2⟩ := hend hE
    simp [AiGenerateTextInternal, hE, h1, h2, AiGenTextBody, hauth, hprompt,
      applyOverrides, hparams, hparse, hmerge]
  | false =>
    simp [AiGenerateTextInternal, hE, AiGenTextBody, hauth, hprompt,
      applyOverrides, hparams, hparse, hmerge]

theorem ai_generate_text_messages_override_forbidden_witness :
    AiGenerateTextInternal envW none (some "hello") none none
      (some "ovr-messages") false
      = noCall (.ret (some AI_GENERATE_TXT_MSG_OVERRIDE_FORBIDDEN_ERROR)) :=
  ai_generate_text_messages_override_forbidden envW none (some "hello") none none
    (some "ovr-messages") false "Authorization: Bearer defaultkey"
    [("temperature", JsonVal.num "0.5"), ("messages", JsonVal.arr [])]
    (fun h => by simp [svPresent] at h) rfl (by decide) (by decide) rfl (by simp)

/-- C7: the two non-constant error paths pass the collaborator message
through verbatim.  A failing secret resolution makes its message the whole
outcome with no transport call; a transport error makes its description
the whole outcome, with the response never handed to the JSON parser. -/
theorem ai_generate_text_passthrough_errors (env : AiEnv)
    (endpoint prompt model secretRef params : Option String) (dry_run : Bool)
    (msg auth t : String) (payload : List (String × JsonVal))
    (hend : svPresent endpoint = true →
      is_api_endpoint_valid (svStr endpoint) = true ∧
        is_api_endpoint_supported (svStr endpoint) = true) :
    (svPresent secretRef = true → env.getSecret (svStr secretRef) = .error msg →
      AiGenerateTextInternal env endpoint prompt model secretRef params dry_run
        = noCall (.ret (some msg)))
    ∧ (buildAuthHeader env secretRef = .ok auth →
       svPresent prompt = true →
       applyOverrides env params (basePayload env prompt model) = .ok payload →
       env.post (effectiveEndpoint env endpoint)
           (env.stringify (JsonVal.obj payload))
           [OPEN_AI_REQUEST_FIELD_CONTENT_TYPE_HEADER, auth] = .error t →
       AiGenerateTextInternal env endpoint prompt model secretRef params false
         = ⟨Outcome.ret (some t),
            some (effectiveEndpoint env endpoint,
              env.stringify (JsonVal.obj payload),
              [OPEN_AI_REQUEST_FIELD_CONTENT_TYPE_HEADER, auth]),
            false⟩) := by
  constructor
  · intro hk hs
    have hb : buildAuthHeader env secretRef = .error msg := by
      simp [buildAuthHeader, hk, hs]
    cases hE : svPresent endpoint with
    | true =>
      obtain ⟨h1, h2⟩ := hend hE
      simp [AiGenerateTextInternal, hE, h1, h2, AiGenTextBody, hb]
    | false =>
      simp [AiGenerateTextInternal, hE, AiGenTextBody, hb]
  · intro hauth hprompt hover hpost
    cases hE : svPresent endpoint with
    | true =>
      obtain ⟨h1, h2⟩ := hend hE
      rw [show effectiveEndpoint env endpoint = svStr endpoint by
        simp [effectiveEndpoint, hE]] at hpost ⊢
      simp [AiGenerateTextInternal, hE, h1, h2, AiGenTextBody, hauth, hprompt,
        hover, networkPhase, hpost]
    | false =>
      rw [show effectiveEndpoint env endpoint = env.ai_endpoint by
        simp [effectiveEndpoint, hE]] at hpost ⊢
      simp [AiGenerateTextInternal, hE, AiGenTextBody, hauth, hprompt,
        hover, networkPhase, hpost]

theorem ai_generate_text_passthrough_errors_witness :
    (AiGenerateTextInternal envW none (some "hello") none (some "badref") none false
      = noCall (.ret (some "keystore lookup failed")))
    ∧ (AiGenerateTextInternal envW none (some "hello") none none none false
      = ⟨Outcome.ret (some "transport error: HTTP 500"),
          some (effectiveEndpoint envW none,
            envW.stringify (JsonVal.obj (basePayload envW (some "hello") none)),
            [OPEN_AI_REQUEST_FIELD_CONTENT_TYPE_HEADER,
              "Authorization: Bearer defaultkey"]),
          false⟩) :=
  ⟨(ai_generate_text_passthrough_errors envW none (some "hello") none
      (some "badref") none false "keystore lookup failed"
      "Authorization: Bearer defaultkey" "" []
      (fun h => by simp [svPresent] at h)).1 (by decide) rfl,
   (ai_generate_text_passthrough_errors envW none (some "hello") none
      none none false "" "Authorization: Bearer defaultkey"
      "transport error: HTTP 500" (basePayload envW (some "hello") none)
      (fun h => by simp [svPresent] at h)).2 rfl (by decide) rfl rfl⟩

/-- C9: with `dry_run` set and payload assembly succeeding, the outcome is
the endpoint line, then each header on its own line (content-type first,
then the authorization header), then the serialized payload, separated by
newlines — and neither the transport POST nor response extraction runs. -/
theorem ai_generate_text_dry_run_rendering (env : AiEnv)
    (endpoint prompt model secretRef params : Option String)
    (auth : String) (payload : List (String × JsonVal))
    (hend : svPresent endpoint = true →
      is_api_endpoint_valid (svStr endpoint) = true ∧
        is_api_endpoint_supported (svStr endpoint) = true)
    (hauth : buildAuthHeader env secretRef = .ok auth)
    (hprompt : svPresent prompt = true)
    (hover : applyOverrides env params (basePayload env prompt model) = .ok payload) :
    AiGenerateTextInternal env endpoint prompt model secretRef params true
      = noCall (.ret (some (effectiveEndpoint env endpoint
          ++ "\n" ++ OPEN_AI_REQUEST_FIELD_CONTENT_TYPE_HEADER
          ++ "\n" ++ auth
          ++ "\n" ++ env.stringify (JsonVal.obj payload)))) := by
  cases hE : svPresent endpoint with
  | true =>
    obtain ⟨h1, h2⟩ := hend hE
    simp [AiGenerateTextInternal, hE, h1, h2, AiGenTextBody, hauth, hprompt,
      hover, effectiveEndpoint, List.foldl]
  | false =>
    simp [AiGenerateTextInternal, hE, AiGenTextBody, hauth, hprompt,
      hover, effectiveEndpoint, List.foldl]

theorem ai_generate_text_dry_run_rendering_witness :
    AiGenerateTextInternal envW none (some "hello") none none (some "ovr-temp") true
      = noCall (.ret (some (effectiveEndpoint envW none
          ++ "\n" ++ OPEN_AI_REQUEST_FIELD_CONTENT_TYPE_HEADER
          ++ "\n" ++ "Authorization: Bearer defaultkey"
          ++ "\n" ++ envW.stringify (JsonVal.obj
            (basePayload envW (some "hello") none
              ++ [("temperature", JsonVal.num "0.2")]))))) :=
  ai_generate_text_dry_run_rendering envW none (some "hello") none none
    (some "ovr-temp") "Authorization: Bearer defaultkey"
    (basePayload envW (some "hello") none ++ [("temperature", JsonVal.num "0.2")])
    (fun h => by simp [svPresent] at h) rfl (by decide) rfl

/-- C10: with no credential reference supplied, the authorization header is
built from the process-wide default key with no is-it-set check — the
headers are exactly the content-type header followed by
`Authorization: Bearer <default key>` — and when that default key is the
empty string the call still proceeds to the network with a bare
`Authorization: Bearer ` header rather than failing. -/
theorem ai_generate_text_default_key_headers (env : AiEnv)
    (endpoint prompt model secretRef params : Option String)
    (payload : List (String × JsonVal))
    (hsec : svPresent secretRef = false) :
    (buildAuthHeader env secretRef
        = .ok ("Authorization: Bearer " ++ env.ai_api_key))
    ∧ (env.ai_api_key = "" →
       (svPresent endpoint = true →
         is_api_endpoint_valid (svStr endpoint) = true ∧
           is_api_endpoint_supported (svStr endpoint) = true) →
       svPresent prompt = true →
       applyOverrides env params (basePayload env prompt model) = .ok payload →
       (AiGenerateTextInternal env endpoint prompt model secretRef params
           false).postCall
         = some (effectiveEndpoint env endpoint,
             env.stringify (JsonVal.obj payload),
             [OPEN_AI_REQUEST_FIELD_CONTENT_TYPE_HEADER,
               "Authorization: Bearer "])) := by
  constructor
  · simp [buildAuthHeader, hsec]
  · intro hkey hend hprompt hover
    have hauth : buildAuthHeader env secretRef = .ok "Authorization: Bearer " := by
      simp [buildAuthHeader, hsec, hkey]
    cases hE : svPresent endpoint with
    | true =>
      obtain ⟨h1, h2⟩ := hend hE
      simp [AiGenerateTextInternal, hE, h1, h2, AiGenTextBody, hauth, hprompt,
        hover, effectiveEndpoint]
    | false =>
      simp [AiGenerateTextInternal, hE, AiGenTextBody, hauth, hprompt,
        hover, effectiveEndpoint]

theorem ai_generate_text_default_key_headers_witness :
    (buildAuthHeader envW0 none
        = .ok ("Authorization: Bearer " ++ envW0.ai_api_key))
    ∧ ((AiGenerateTextInternal envW0 none (some "hello") none none none
          false).postCall
        = some (effectiveEndpoint envW0 none,
            envW0.stringify (JsonVal.obj (basePayload envW0 (some "hello") none)),
            [OPEN_AI_REQUEST_FIELD_CONTENT_TYPE_HEADER,
              "Authorization: Bearer "])) :=
  ⟨(ai_generate_text_default_key_headers envW0 none (some "hello") none none none
      (basePayload envW0 (some "hello") none) (by decide)).1,
   (ai_generate_text_default_key_headers envW0 none (some "hello") none none none
      (basePayload envW0 (some "hello") none) (by decide)).2 rfl
      (fun h => by simp [svPresent] at h) (by decide) rfl⟩

/-- C8: override merging is replace-or-add on field identity.  For an
override object without a `messages` member, merging into a base payload
with distinct member names succeeds, keeps the names distinct, leaves
exactly one member for every overridden name — valued by the last
occurrence in the override document, so a duplicated key never produces a
duplicate member — and leaves every non-overridden name's members exactly
as they were in the base payload. -/
theorem merge_replace_or_add (ovr : List (String × JsonVal)) :
    ∀ base : List (String × JsonVal), (base.map Prod.fst).Nodup →
      "messages" ∉ ovr.map Prod.fst →
      ∃ merged, mergeLoop base ovr = .ok merged
        ∧ (merged.map Prod.fst).Nodup
        ∧ (∀ n v, lastVal ovr n = some v →
            merged.filter (fun q => q.1 == n) = [(n, v)])
        ∧ (∀ n, n ∉ ovr.map Prod.fst →
            merged.filter (fun q => q.1 == n) = base.filter (fun q => q.1 == n)) := by
  induction ovr with
  | nil =>
    intro base hnd _
    refine ⟨base, rfl, hnd, ?_, fun n _ => rfl⟩
    intro n v h
    simp [lastVal] at h
  | cons hd tl ih =>
    intro base hnd hnm
    obtain ⟨n₀, v₀⟩ := hd
    have hn₀ : ¬ (n₀ = "messages") := by
      intro e
      exact hnm (by simp [e])
    have hnm' : "messages" ∉ tl.map Prod.fst := by
      intro h
      exact hnm (by simp [h])
    have hne : (n₀ == "messages") = false := by simp [hn₀]
    cases hbase : hasMember base n₀ with
    | true =>
      have hb' : ((setMember base n₀ v₀).map Prod.fst).Nodup := by
        rw [names_setMember]
        exact hnd
      obtain ⟨merged, hml, hmnd, hlast, hframe⟩ := ih (setMember base n₀ v₀) hb' hnm'
      refine ⟨merged, ?_, hmnd, ?_, ?_⟩
      · simp only [mergeLoop, hbase, if_true, hne, Bool.false_eq_true, if_false]
        exact hml
      · intro n v hlv
        cases hlt : lastVal tl n with
        | some v' =>
          rw [lastVal_cons_of_some (n₀, v₀) tl n v' hlt] at hlv
          exact (Option.some.inj hlv) ▸ hlast n v' hlt
        | none =>
          rw [lastVal_cons_of_none (n₀, v₀) tl n hlt] at hlv
          simp only at hlv
          cases hx : (n₀ == n) with
          | false =>
            rw [hx] at hlv
            simp at hlv
          | true =>
            rw [hx] at hlv
            simp at hlv
            have hn_eq : n₀ = n := by simpa using hx
            subst hn_eq
            subst hlv
            have hnotl : n₀ ∉ tl.map Prod.fst := (lastVal_eq_none_iff tl n₀).mp hlt
            rw [hframe n₀ hnotl]
            exact filter_setMember_self base n₀ v₀ hnd hbase
      · intro n hn
        have hn1 : ¬ (n = n₀) := fun e => hn (by simp [e])
        have hn2 : n ∉ tl.map Prod.fst := fun h => hn (by simp [h])
        rw [hframe n hn2]
        exact filter_setMember_ne base n₀ v₀ n
          (beq_eq_false_iff_ne.mpr (fun e => hn1 e.symm))
    | false =>
      have hnotin : n₀ ∉ base.map Prod.fst := by
        intro h
        exact absurd ((hasMember_mem_iff base n₀).mpr h) (by simp [hbase])
      have hb' : ((base ++ [(n₀, v₀)]).map Prod.fst).Nodup := by
        have hdis : (base.map Prod.fst).Disjoint [n₀] := by
          intro a ha hb
          simp at hb
          exact hnotin (hb ▸ ha)
        have : (base.map Prod.fst ++ [n₀]).Nodup :=
          List.nodup_append.mpr ⟨hnd, List.nodup_singleton n₀, hdis⟩
        simpa using this
      obtain ⟨merged, hml, hmnd, hlast, hframe⟩ := ih (base ++ [(n₀, v₀)]) hb' hnm'
      refine ⟨merged, ?_, hmnd, ?_, ?_⟩
      · simp only [mergeLoop, hbase, Bool.false_eq_true, if_false]
        exact hml
      · intro n v hlv
        cases hlt : lastVal tl n with
        | some v' =>
          rw [lastVal_cons_of_some (n₀, v₀) tl n v' hlt] at hlv
          exact (Option.some.inj hlv) ▸ hlast n v' hlt
        | none =>
          rw [lastVal_cons_of_none (n₀, v₀) tl n hlt] at hlv
          simp only at hlv
          cases hx : (n₀ == n) with
          | false =>
            rw [hx] at hlv
            simp at hlv
          | true =>
            rw [hx] at hlv
            simp at hlv
            have hn_eq : n₀ = n := by simpa using hx
            subst hn_eq
            subst hlv
            have hnotl : n₀ ∉ tl.map Prod.fst := (lastVal_eq_none_iff tl n₀).mp hlt
            rw [hframe n₀ hnotl, List.filter_append,
              filter_nil_of_not_hasMember base n₀ hbase]
            simp [List.filter_cons]
      · intro n hn
        have hn1 : ¬ (n = n₀) := fun e => hn (by simp [e])
        have hn2 : n ∉ tl.map Prod.fst := fun h => hn (by simp [h])
        rw [hframe n hn2, List.filter_append]
        have hemp : ([(n₀, v₀)].filter (fun q => q.1 == n)) = [] := by
          simp [List.filter_cons,
            show (n₀ == n) = false from
              beq_eq_false_iff_ne.mpr (fun e => hn1 e.symm)]
        rw [hemp, List.append_nil]

theorem merge_replace_or_add_witness :
    ∃ merged,
      mergeLoop [("model", JsonVal.str "gpt-4"), ("messages", JsonVal.arr [])]
        [("temperature", JsonVal.num "0.5"), ("temperature", JsonVal.num "0.5")]
        = .ok merged
      ∧ ((merged.map Prod.fst).Nodup)
      ∧ (∀ n v,
          lastVal [("temperature", JsonVal.num "0.5"),
            ("temperature", JsonVal.num "0.5")] n = some v →
          merged.filter (fun q => q.1 == n) = [(n, v)])
      ∧ (∀ n,
          n ∉ ([("temperature", JsonVal.num "0.5"),
            ("temperature", JsonVal.num "0.5")].map Prod.fst) →
          merged.filter (fun q => q.1 == n)
            = [("model", JsonVal.str "gpt-4"),
                ("messages", JsonVal.arr [])].filter (fun q => q.1 == n)) :=
  merge_replace_or_add
    [("temperature", JsonVal.num "0.5"), ("temperature", JsonVal.num "0.5")]
    [("model", JsonVal.str "gpt-4"), ("messages", JsonVal.arr [])]
    (by decide) (by decide)
